import Mathlib

/-
Verification development for the voice-dictation daemon's segmentation and
pipeline-coordination core (src/vad.rs, src/transcribe.rs, src/transcript.rs,
and the coordinator in src/main.rs).

Modelling conventions:
* Audio samples are abstracted to an arbitrary type `α` (the source uses f32;
  none of the verified properties depend on sample values, only on their
  order and counts, except energy checks, which are abstracted as below).
* The external TEN-VAD scoring model (`vad.process_frame`) is abstracted by
  the per-analysis-frame Boolean `is_speech` (in the source: score ≥
  VAD_THRESHOLD); the model handle and its `reset()` live outside the state
  we model.
* The f32 RMS-energy gate (`rms(..) >= SILENCE_THRESHOLD`) is abstracted as
  an arbitrary predicate `loud : List α → Bool`: the verified flush
  properties hold for either outcome of the comparison.
* Channel sends become lists of emitted values; mutation becomes explicit
  state passing.
-/

namespace V2T

/- Constants from src/config.rs.  The two f32-derived constants evaluate
exactly: `(16000.0f32 * 20.0) as usize = 320000` and
`(16000.0f32 * 0.3) as usize = 4800`. -/

def SAMPLE_RATE : Nat := 16000

def VAD_FRAME_SIZE : Nat := 256

def VAD_PRE_SPEECH_PAD_MS : Nat := 300

def VAD_POST_SPEECH_PAD_MS : Nat := 600

def VAD_MIN_SPEECH_MS : Nat := 1000

def VAD_PRE_SPEECH_SAMPLES : Nat := SAMPLE_RATE * VAD_PRE_SPEECH_PAD_MS / 1000

def VAD_POST_SPEECH_SAMPLES : Nat := SAMPLE_RATE * VAD_POST_SPEECH_PAD_MS / 1000

def VAD_MIN_SPEECH_SAMPLES : Nat := SAMPLE_RATE * VAD_MIN_SPEECH_MS / 1000

def VAD_MAX_SPEECH_SAMPLES : Nat := 320000

def CHUNK_MIN_FLUSH_SAMPLES : Nat := 4800

/- Segmenter state, from the local variables of `vad_thread` (src/vad.rs).
`frame_buf`/`f32_buf` (the re-chunking buffers) are not modelled: the
per-analysis-frame step below starts where `pop_frame` has already produced
one analysis frame.  VecDeque front = list head = oldest sample. -/

inductive VadState where
  | Silence
  | Speech
deriving DecidableEq

structure VadSt (α : Type) where
  state : VadState
  pre_speech : List α
  speech_buffer : List α
  silence_count : Nat
  chunk_buffer : List α
deriving DecidableEq

/-- Initial segmenter state; also the result of the `reset_state!` macro in
`vad_thread` (src/vad.rs lines 71-84), which additionally resets the
external VAD model handle. -/
def initSt {α : Type} : VadSt α :=
  ⟨VadState.Silence, [], [], 0, []⟩

/-- Embedding of `send_speech` (src/vad.rs lines 251-268).  Returns the
speech buffer after the call (always empty: `clear` in the discard branch,
`mem::take` in the send branch) and the list of segments enqueued on
`chunk_tx` (empty or the unchanged buffer). -/
def send_speech {α : Type} (speech_buffer : List α) : List α × List (List α) :=
  if speech_buffer.length < VAD_MIN_SPEECH_SAMPLES then ([], [])
  else ([], [speech_buffer])

/-- One iteration of the pre-speech ring-buffer insertion
(src/vad.rs lines 126-131): evict the oldest sample when at capacity, then
push the new sample at the back. -/
def ringPush {α : Type} (cap : Nat) (buf : List α) (s : α) : List α :=
  (if cap ≤ buf.length then buf.tail else buf) ++ [s]

/-- The whole `for &s in &f32_frame` loop feeding the ring buffer. -/
def ringExtend {α : Type} (cap : Nat) (buf : List α) (frame : List α) : List α :=
  frame.foldl (ringPush cap) buf

/-- Embedding of the per-analysis-frame VAD-mode state machine
(src/vad.rs lines 122-163), given the externally computed speech score
comparison `is_speech` and the drained `f32_frame`.  Returns the new state
and the segments enqueued on `chunk_tx`.  The `vad_ref.reset()` on the
silence exit acts on the external model handle only. -/
def processFrame {α : Type} (st : VadSt α) (is_speech : Bool) (frame : List α) :
    VadSt α × List (List α) :=
  match st.state with
  | VadState.Silence =>
    let pre := ringExtend VAD_PRE_SPEECH_SAMPLES st.pre_speech frame
    if is_speech then
      ({ st with state := VadState.Speech, speech_buffer := pre ++ frame,
                 pre_speech := [], silence_count := 0 }, [])
    else
      ({ st with pre_speech := pre }, [])
  | VadState.Speech =>
    let buf := st.speech_buffer ++ frame
    let sc := if is_speech then 0 else st.silence_count + VAD_FRAME_SIZE
    if VAD_MAX_SPEECH_SAMPLES ≤ buf.length then
      let r := send_speech buf
      ({ st with speech_buffer := r.1, silence_count := 0 }, r.2)
    else if VAD_POST_SPEECH_SAMPLES ≤ sc then
      let r := send_speech buf
      ({ st with state := VadState.Silence, speech_buffer := r.1,
                 silence_count := 0 }, r.2)
    else
      ({ st with speech_buffer := buf, silence_count := sc }, [])

/-- Embedding of the `VadCommand::Flush` handler (src/vad.rs lines 189-216).
`use_vad` selects the mode; `loud cb` stands for the f32 comparison
`rms(cb) >= SILENCE_THRESHOLD`.  Returns the state after the handler and the
values enqueued on `chunk_tx`, ending with the empty sentinel `Vec::new()`. -/
def flush {α : Type} (use_vad : Bool) (loud : List α → Bool) (st : VadSt α) :
    VadSt α × List (List α) :=
  if use_vad then
    let emitted := if st.speech_buffer.isEmpty then [] else (send_speech st.speech_buffer).2
    (initSt, emitted ++ [[]])
  else
    if CHUNK_MIN_FLUSH_SAMPLES ≤ st.chunk_buffer.length then
      if loud st.chunk_buffer then
        ({ st with chunk_buffer := [] }, [st.chunk_buffer] ++ [[]])
      else ({ st with chunk_buffer := [] }, [[]])
    else ({ st with chunk_buffer := [] }, [[]])

/- Live reconfiguration (src/vad.rs lines 222-241).  The handler re-reads
the configuration; we model the two values it compares: the segmentation
mode `use_vad` and the derived chunk-sample count
`(chunk_duration_secs * SAMPLE_RATE as f32) as usize`. -/

structure VadCfg where
  use_vad : Bool
  chunk_samples : Nat
deriving DecidableEq

/-- Embedding of the `VadCommand::ReloadConfig` handler: if mode or derived
chunk length differ from the active ones, adopt them and run `reset_state!`
(which also touches the external model handle); otherwise do nothing. -/
def reloadConfig {α : Type} (cur : VadCfg) (st : VadSt α) (newCfg : VadCfg) :
    VadCfg × VadSt α :=
  if newCfg.use_vad ≠ cur.use_vad ∨ newCfg.chunk_samples ≠ cur.chunk_samples then
    (newCfg, initSt)
  else (cur, st)

/- Transcription stage (src/transcribe.rs). -/

/-- Result sent from the transcription thread to the coordinator
(src/transcribe.rs lines 13-16). -/
structure TranscribeResult where
  text : String
  process_time_ms : Nat
deriving DecidableEq

/-- Embedding of `is_hallucination` (src/transcribe.rs lines 142-151);
Rust `&&` binds tighter than `||`. -/
def is_hallucination (text : String) : Bool :=
  let t := text.trim
  (t.startsWith ("[") && t.endsWith ("]"))
    || (t.startsWith ("(") && t.endsWith (")"))
    || t == "you"
    || t == "Thank you."
    || t == "Thanks for watching!"
    || t == "Bye."
    || t == "..."

/-- Embedding of `transcribe_chunk` (src/transcribe.rs lines 93-140).  The
whisper inference call `state.full` plus segment-text collection and timing
is the external collaborator `infer` (`none` = inference error, logged and
dropped); `z` is the zero sample used for padding.  Returns the results sent
on `text_tx`. -/
def transcribe_chunk {α : Type} (infer : List α → Option (String × Nat)) (z : α)
    (chunk : List α) : List TranscribeResult :=
  let audio := if chunk.length < SAMPLE_RATE then
      chunk ++ List.replicate (SAMPLE_RATE - chunk.length) z
    else chunk
  match infer audio with
  | none => []
  | some (raw, elapsed) =>
    let text := raw.trim
    if !(text == "") && !(is_hallucination text) then [⟨text, elapsed⟩] else []

/-- Embedding of the `recv(chunk_rx)` arm of `transcription_loop`
(src/transcribe.rs lines 55-70): an empty chunk is the flush sentinel and is
forwarded as an empty result unconditionally; otherwise inference runs only
when a model is loaded. -/
def handleChunk {α : Type} (modelLoaded : Bool) (infer : List α → Option (String × Nat))
    (z : α) (c : List α) : List TranscribeResult :=
  if c.isEmpty then [⟨"", 0⟩]
  else if modelLoaded then transcribe_chunk infer z c
  else []

/- Transcript persistence (src/transcript.rs). -/

structure Transcript where
  timestamp : Int
  datetime : String
  text : String
  process_time_ms : Nat
deriving DecidableEq

/-- Embedding of `save_transcript` (src/transcript.rs lines 33-51) acting on
the loaded store `store`; the wall-clock fields `ts`/`dt` are external
inputs.  `maxT` is the `max` retention parameter (u32). -/
def save_transcript (store : List Transcript) (text : String) (maxT : Nat)
    (ts : Int) (dt : String) (ms : Nat) : List Transcript :=
  if text == "" then store
  else
    let all := store ++ [⟨ts, dt, text, ms⟩]
    if 0 < maxT ∧ maxT < all.length then all.drop (all.length - maxT)
    else all

/- Session coordinator (src/main.rs). -/

inductive RecordingState where
  | Idle
  | PushToTalk
  | AlwaysListen
deriving DecidableEq

/-- `RecordingState::is_recording` (src/config.rs lines 337-341). -/
def RecordingState.is_recording : RecordingState → Bool
  | RecordingState.Idle => false
  | RecordingState.PushToTalk => true
  | RecordingState.AlwaysListen => true

inductive ActiveBackend where
  | Evdev
  | GlobalHotkey
deriving DecidableEq

/-- The slice of `Config` the coordinator's result handling reads. -/
structure AppCfg where
  clipboard_auto_copy : Bool
  max_transcripts : Nat
deriving DecidableEq

/-- Coordinator-owned state: the official recording state and the session
accumulator (src/main.rs lines 64-66). -/
structure CoordSt where
  state : RecordingState
  session_text : List String
  session_process_ms : Nat
deriving DecidableEq

/-- Observable side effects of the coordinator, in program order.
`MarkIdle` is the `*state = RecordingState::Idle` assignment; `DrainWait`
marks one blocking `recv_timeout` on the transcription channel. -/
inductive Effect where
  | TypeText (t : String)
  | SaveTranscript (t : String) (maxT : Nat) (ms : Nat)
  | CopyClipboard (t : String)
  | TrayRefresh
  | TraySetState (s : RecordingState)
  | AudioStop
  | VadFlush
  | MarkIdle
  | DrainWait
  | WarnTimeout
deriving DecidableEq

/-- The buffering predicate computed at src/main.rs lines 205-206 (and as
`was_buffered` at lines 277-278): buffer exactly for push-to-talk under the
global_hotkey fallback backend. -/
def should_buffer (state : RecordingState) (backend : ActiveBackend) : Bool :=
  state == RecordingState.PushToTalk && backend == ActiveBackend.GlobalHotkey

/-- Embedding of the `recv(text_rx)` arm of `coordinator_loop`
(src/main.rs lines 199-229).  Returns the updated coordinator state and the
effects performed (the `typing_ended_at` timestamp store accompanies each
immediate `TypeText`). -/
def handleResult (st : CoordSt) (backend : ActiveBackend) (cfg : AppCfg)
    (r : TranscribeResult) : CoordSt × List Effect :=
  if st.state.is_recording && !(r.text == "") then
    let st1 : CoordSt := ⟨st.state, st.session_text ++ [r.text],
      st.session_process_ms + r.process_time_ms⟩
    let typeEffs := if should_buffer st.state backend then [] else [Effect.TypeText r.text]
    let alEffs := if st.state == RecordingState.AlwaysListen then
        [Effect.SaveTranscript r.text cfg.max_transcripts r.process_time_ms]
          ++ (if cfg.clipboard_auto_copy then [Effect.CopyClipboard r.text] else [])
          ++ [Effect.TrayRefresh]
      else []
    (st1, typeEffs ++ alEffs)
  else (st, [])

inductive DrainEnd where
  | Sentinel
  | Timeout
deriving DecidableEq

structure DrainOut where
  texts : List String
  ms : Nat
  effs : List Effect
  dend : DrainEnd
deriving DecidableEq

/-- Embedding of the drain loop of `stop_recording` (src/main.rs lines
283-308).  `arrivals` is the finite sequence of results that arrive on the
transcription channel each within the 10-second `recv_timeout` of the
previous receive; exhausting it without a sentinel models the timeout
(`Err(_)`), which logs the lost-audio warning and abandons the drain. -/
def drainLoop (wb al : Bool) (cfg : AppCfg) :
    List TranscribeResult → List String → Nat → DrainOut
  | [], texts, ms => ⟨texts, ms, [Effect.DrainWait, Effect.WarnTimeout], DrainEnd.Timeout⟩
  | r :: rest, texts, ms =>
    if r.text == "" then ⟨texts, ms, [Effect.DrainWait], DrainEnd.Sentinel⟩
    else
      let live := (if wb then [] else [Effect.TypeText r.text])
        ++ (if al then
              [Effect.SaveTranscript r.text cfg.max_transcripts r.process_time_ms,
               Effect.TrayRefresh]
            else [])
      let d := drainLoop wb al cfg rest (texts ++ [r.text]) (ms + r.process_time_ms)
      ⟨d.texts, d.ms, Effect.DrainWait :: (live ++ d.effs), d.dend⟩

/-- Post-drain finalization of `stop_recording` (src/main.rs lines 310-330):
AlwaysListen sessions only log the joined text; otherwise the joined text
(if any) is typed now when it was buffered, persisted once, optionally
copied to the clipboard, and the UI refreshed. -/
def finalize_output (wb al : Bool) (cfg : AppCfg) (texts : List String) (ms : Nat) :
    List Effect :=
  let full := String.intercalate (" ") texts
  if al then []
  else if full == "" then []
  else
    (if wb then [Effect.TypeText full] else [])
      ++ [Effect.SaveTranscript full cfg.max_transcripts ms]
      ++ (if cfg.clipboard_auto_copy then [Effect.CopyClipboard full] else [])
      ++ [Effect.TrayRefresh]

/-- Embedding of `stop_recording` (src/main.rs lines 258-334): stop audio,
send the segmenter flush, set the official state to Idle, drain, finalize,
and notify the tray.  Returns the coordinator state, the effects in program
order, and how the drain ended. -/
def stop_recording (st : CoordSt) (backend : ActiveBackend) (cfg : AppCfg)
    (arrivals : List TranscribeResult) : CoordSt × List Effect × DrainEnd :=
  let wb := should_buffer st.state backend
  let al := st.state == RecordingState.AlwaysListen
  let d := drainLoop wb al cfg arrivals st.session_text st.session_process_ms
  (⟨RecordingState.Idle, d.texts, d.ms⟩,
   Effect.AudioStop :: Effect.VadFlush :: Effect.MarkIdle ::
     (d.effs ++ finalize_output wb al cfg d.texts d.ms
       ++ [Effect.TraySetState RecordingState.Idle]),
   d.dend)

/- Helper lemmas (shared). -/

/-- A full ring buffer stays full: pushing a whole frame slides the window,
leaving the last `cap` samples of `buf ++ frame`. -/
theorem ringExtend_of_length_eq {α : Type} (cap : Nat) (hcap : 0 < cap) :
    ∀ (frame buf : List α), buf.length = cap →
      ringExtend cap buf frame = (buf ++ frame).drop frame.length := by
  intro frame
  induction frame with
  | nil => intro buf h; simp [ringExtend]
  | cons s fr ih =>
    intro buf h
    cases buf with
    | nil => simp at h; omega
    | cons b bt =>
      have hlen : cap ≤ bt.length + 1 := by
        simp at h
        omega
      have hpush : ringPush cap (b :: bt) s = bt ++ [s] := by
        simp [ringPush, hlen]
      have hlen2 : (bt ++ [s]).length = cap := by
        simp at h ⊢
        omega
      calc ringExtend cap (b :: bt) (s :: fr)
          = ringExtend cap (ringPush cap (b :: bt) s) fr := rfl
        _ = ringExtend cap (bt ++ [s]) fr := by rw [hpush]
        _ = ((bt ++ [s]) ++ fr).drop fr.length := ih _ hlen2
        _ = ((b :: bt) ++ s :: fr).drop (s :: fr).length := by
              simp [List.append_assoc]

theorem vad_pre_speech_samples_eq : VAD_PRE_SPEECH_SAMPLES = 4800 := by
  norm_num [VAD_PRE_SPEECH_SAMPLES, SAMPLE_RATE, VAD_PRE_SPEECH_PAD_MS]

theorem vad_min_speech_samples_eq : VAD_MIN_SPEECH_SAMPLES = 16000 := by
  norm_num [VAD_MIN_SPEECH_SAMPLES, SAMPLE_RATE, VAD_MIN_SPEECH_MS]

/- Claim theorems. -/

/-- C6: `send_speech` discards (enqueues nothing) any accumulated segment
strictly below the minimum-speech-sample floor, and enqueues exactly the
unchanged segment when at or above the floor; in both cases the accumulation
buffer is left empty afterwards. -/
theorem c6_min_length_discard {α : Type} (buf : List α) :
    (buf.length < VAD_MIN_SPEECH_SAMPLES → send_speech buf = ([], [])) ∧
    (VAD_MIN_SPEECH_SAMPLES ≤ buf.length → send_speech buf = ([], [buf])) := by
  constructor
  · intro h
    simp [send_speech, h]
  · intro h
    simp [send_speech, Nat.not_lt.mpr h]

/-- Witness for C6 at a segment of exactly the 16000-sample floor. -/
theorem c6_min_length_discard_witness :
    send_speech (List.replicate 16000 (0 : Int)) = ([], [List.replicate 16000 (0 : Int)]) :=
  (c6_min_length_discard _).2 (by
    rw [vad_min_speech_samples_eq, List.length_replicate])

/-- C2: for every segmenter state and either mode, one Flush emits zero or
one real (non-empty) segment followed by exactly one zero-length sentinel,
the sentinel last and unconditional. -/
theorem c2_flush_contract {α : Type} (use_vad : Bool) (loud : List α → Bool) (st : VadSt α) :
    ∃ real, (flush use_vad loud st).2 = real ++ [[]]
      ∧ real.length ≤ 1
      ∧ real.all (fun s => !s.isEmpty) = true := by
  cases use_vad with
  | false =>
    by_cases hlen : CHUNK_MIN_FLUSH_SAMPLES ≤ st.chunk_buffer.length
    · by_cases hl : loud st.chunk_buffer
      · refine ⟨[st.chunk_buffer], by simp [flush, hlen, hl], by simp, ?_⟩
        have hne : st.chunk_buffer ≠ [] := by
          intro h
          rw [h] at hlen
          simp [CHUNK_MIN_FLUSH_SAMPLES] at hlen
        simp [hne]
      · exact ⟨[], by simp [flush, hlen, hl], by simp, by simp⟩
    · exact ⟨[], by simp [flush, hlen], by simp, by simp⟩
  | true =>
    by_cases he : st.speech_buffer.isEmpty
    · exact ⟨[], by simp [flush, he], by simp, by simp⟩
    · by_cases hm : st.speech_buffer.length < VAD_MIN_SPEECH_SAMPLES
      · exact ⟨[], by simp [flush, he, send_speech, hm], by simp, by simp⟩
      · refine ⟨[st.speech_buffer], by simp [flush, he, send_speech, hm], by simp, ?_⟩
        simp [he]

/-- C9: reloading configuration is a no-op on the whole modelled segmenter
state exactly when neither the segmentation mode nor the derived
chunk-sample count changed; otherwise (and only then) all segmentation
state is reset. -/
theorem c9_reload_noop {α : Type} (cur : VadCfg) (st : VadSt α) (newCfg : VadCfg) :
    reloadConfig cur st newCfg
      = if newCfg = cur then (cur, st) else (newCfg, (initSt : VadSt α)) := by
  by_cases h : newCfg = cur
  · subst h
    simp [reloadConfig]
  · have hne : newCfg.use_vad ≠ cur.use_vad ∨ newCfg.chunk_samples ≠ cur.chunk_samples := by
      by_contra hc
      push_neg at hc
      apply h
      cases newCfg
      cases cur
      simp_all
    rw [reloadConfig, if_pos hne, if_neg h]

/-- C10: a transcription result received while RecordingState is Idle, or an
empty-text result outside the stop-and-drain protocol, is silently
discarded: the coordinator state (session accumulator included) is unchanged
and no typing, clipboard, persistence, or UI effect happens. -/
theorem c10_idle_discard (st : CoordSt) (b : ActiveBackend) (cfg : AppCfg)
    (r : TranscribeResult) (h : st.state = RecordingState.Idle ∨ r.text = "") :
    handleResult st b cfg r = (st, []) := by
  rcases h with h | h
  · simp [handleResult, h, RecordingState.is_recording]
  · simp [handleResult, h]

/-- Witness for C10: a straggler result arriving while Idle is dropped. -/
theorem c10_idle_discard_witness :
    handleResult ⟨RecordingState.Idle, ["kept"], 7⟩ ActiveBackend.Evdev ⟨true, 5⟩
        ⟨"straggler", 9⟩
      = (⟨RecordingState.Idle, ["kept"], 7⟩, []) :=
  c10_idle_discard _ _ _ _ (Or.inl rfl)

/-- Inference on a real chunk never yields an empty-text result: text that is
empty after trimming is dropped before the channel send. -/
theorem transcribe_chunk_no_empty {α : Type} (infer : List α → Option (String × Nat))
    (z : α) (chunk : List α) :
    (transcribe_chunk infer z chunk).any (fun r => r.text == "") = false := by
  simp only [transcribe_chunk]
  split
  · simp
  · rename_i raw elapsed heq
    by_cases ht : raw.trim == ""
    · simp [ht]
    · by_cases hh : is_hallucination raw.trim
      · simp [ht, hh]
      · simp [ht, hh]

/-- C3: the transcription stage emits an empty-text outcome (with zero
processing time) iff it received the zero-length sentinel segment; the
sentinel is forwarded unconditionally (with or without a loaded model, no
hallucination filtering), and a real segment never produces an empty-text
outcome. -/
theorem c3_sentinel_forwarding {α : Type} (m : Bool)
    (infer : List α → Option (String × Nat)) (z : α) (c : List α) :
    ((handleChunk m infer z c).any (fun r => r.text == "")) = c.isEmpty
      ∧ handleChunk m infer z ([] : List α) = [⟨"", 0⟩] := by
  refine ⟨?_, by simp [handleChunk]⟩
  cases c with
  | nil => simp [handleChunk]
  | cons x xs =>
    cases m with
    | false => simp [handleChunk]
    | true => simp [handleChunk, transcribe_chunk_no_empty]

theorem vad_frame_size_eq : VAD_FRAME_SIZE = 256 := rfl

/-- Definitional reduction of a Silence-state step on a speech-scored frame:
the frame is pushed into the ring buffer first, and the accumulation is
seeded with the updated ring contents followed by the frame. -/
theorem processFrame_silence_onset {α : Type} (ring frame sb : List α) (sc : Nat)
    (cb : List α) :
    processFrame (⟨VadState.Silence, ring, sb, sc, cb⟩ : VadSt α) true frame
      = (⟨VadState.Speech, [], ringExtend VAD_PRE_SPEECH_SAMPLES ring frame ++ frame, 0, cb⟩,
         []) := rfl

/-- Reduction of a Speech-state step on a speech-scored frame whose
accumulation crosses the max-speech ceiling (and the minimum floor): the
whole accumulation is force-emitted. -/
theorem processFrame_speech_max {α : Type} (pre sb : List α) (sc : Nat) (cb : List α)
    (frame : List α)
    (h1 : VAD_MAX_SPEECH_SAMPLES ≤ (sb ++ frame).length)
    (h2 : VAD_MIN_SPEECH_SAMPLES ≤ (sb ++ frame).length) :
    processFrame (⟨VadState.Speech, pre, sb, sc, cb⟩ : VadSt α) true frame
      = (⟨VadState.Speech, pre, [], 0, cb⟩, [sb ++ frame]) := by
  simp only [processFrame]
  rw [if_pos h1]
  simp only [send_speech]
  rw [if_neg (Nat.not_lt.mpr h2)]

/-- C4 (counterexample): the claim that the seeded segment begins with the
full ring-buffer contents held at the transition, immediately followed
exactly once by the triggering frame, fails: the Silence handler pushes the
triggering frame into the ring first, evicting the oldest frame-size
samples, so with a full 4800-sample ring of zeros and a 256-sample frame of
ones the accumulated segment differs from ring ++ frame (they disagree on
how many zeros they contain: 4544 versus 4800). -/
theorem c4_counterexample :
    (processFrame (⟨VadState.Silence, List.replicate 4800 (0 : Int), [], 0, []⟩ : VadSt Int)
        true (List.replicate 256 (1 : Int))).1.speech_buffer
      ≠ List.replicate 4800 (0 : Int) ++ List.replicate 256 (1 : Int) := by
  have hcap : 0 < VAD_PRE_SPEECH_SAMPLES := by
    rw [vad_pre_speech_samples_eq]
    norm_num
  have hr : (List.replicate 4800 (0 : Int)).length = VAD_PRE_SPEECH_SAMPLES := by
    rw [vad_pre_speech_samples_eq, List.length_replicate]
  have hext : ringExtend VAD_PRE_SPEECH_SAMPLES (List.replicate 4800 (0 : Int))
        (List.replicate 256 (1 : Int))
      = (List.replicate 4800 (0 : Int) ++ List.replicate 256 (1 : Int)).drop 256 := by
    rw [ringExtend_of_length_eq _ hcap _ _ hr, List.length_replicate]
  have hdrop : (List.replicate 4800 (0 : Int) ++ List.replicate 256 (1 : Int)).drop 256
      = List.replicate 4544 (0 : Int) ++ List.replicate 256 (1 : Int) := by
    rw [List.drop_append_of_le_length (by rw [List.length_replicate]; norm_num),
        List.drop_replicate]
  have hc1 : List.count (0 : Int) (List.replicate 256 (1 : Int)) = 0 := by
    rw [List.count_replicate]
    norm_num
  rw [processFrame_silence_onset]
  show ringExtend VAD_PRE_SPEECH_SAMPLES (List.replicate 4800 (0 : Int))
        (List.replicate 256 (1 : Int)) ++ List.replicate 256 (1 : Int)
      ≠ List.replicate 4800 (0 : Int) ++ List.replicate 256 (1 : Int)
  rw [hext, hdrop]
  intro heq
  have hc := congrArg (List.count (0 : Int)) heq
  rw [List.count_append, List.count_append, List.count_append,
      List.count_replicate_self, List.count_replicate_self, hc1] at hc
  omega

/-- C4 (amended): on a Silence-to-Speech transition with a full ring buffer,
the triggering frame is first pushed into the ring (evicting its oldest
frame-size samples); the accumulated segment is then the updated ring
contents (original order) followed by the triggering frame once more, so the
frame's samples appear twice; the ring buffer is cleared and the silence
counter reset. -/
theorem c4_pre_speech_amended {α : Type} (ring frame sb : List α) (sc : Nat) (cb : List α)
    (hr : ring.length = VAD_PRE_SPEECH_SAMPLES) (hf : frame.length = VAD_FRAME_SIZE) :
    processFrame (⟨VadState.Silence, ring, sb, sc, cb⟩ : VadSt α) true frame
      = (⟨VadState.Speech, [], (ring.drop VAD_FRAME_SIZE ++ frame) ++ frame, 0, cb⟩, []) := by
  have hcap : 0 < VAD_PRE_SPEECH_SAMPLES := by
    rw [vad_pre_speech_samples_eq]
    norm_num
  have hle : frame.length ≤ ring.length := by
    rw [hr, hf, vad_pre_speech_samples_eq, vad_frame_size_eq]
    norm_num
  have hext : ringExtend VAD_PRE_SPEECH_SAMPLES ring frame = (ring ++ frame).drop frame.length :=
    ringExtend_of_length_eq _ hcap frame ring hr
  have hdrop : (ring ++ frame).drop frame.length = ring.drop VAD_FRAME_SIZE ++ frame := by
    rw [List.drop_append_of_le_length hle, hf]
  rw [processFrame_silence_onset, hext, hdrop]

/-- Witness for the amended C4 at a concrete full ring and frame. -/
theorem c4_pre_speech_amended_witness :
    processFrame (⟨VadState.Silence, List.replicate 4800 (0 : Int), [], 0, []⟩ : VadSt Int)
        true (List.replicate 256 (1 : Int))
      = (⟨VadState.Speech, [],
          ((List.replicate 4800 (0 : Int)).drop VAD_FRAME_SIZE ++ List.replicate 256 (1 : Int))
            ++ List.replicate 256 (1 : Int), 0, []⟩, []) :=
  c4_pre_speech_amended _ _ _ _ _
    (by rw [vad_pre_speech_samples_eq, List.length_replicate])
    (by rw [vad_frame_size_eq, List.length_replicate])

/-- C5 (counterexample): the claim that the force-flushed segment has
exactly the ceiling length fails: with an accumulation of 319936 samples
(reachable from startup: the ring fills to 4800, a speech onset seeds
4800 + 256 samples, and 1230 further speech frames of 256 samples each
arrive), the next speech frame crosses the 320000-sample ceiling and the
emitted segment has 320192 samples, not 320000. -/
theorem c5_counterexample :
    (processFrame (⟨VadState.Speech, [], List.replicate 319936 (0 : Int), 0, []⟩ : VadSt Int)
        true (List.replicate 256 (0 : Int))).2
      = [List.replicate 319936 (0 : Int) ++ List.replicate 256 (0 : Int)]
    ∧ (List.replicate 319936 (0 : Int) ++ List.replicate 256 (0 : Int)).length
        ≠ VAD_MAX_SPEECH_SAMPLES := by
  have hlen : (List.replicate 319936 (0 : Int) ++ List.replicate 256 (0 : Int)).length
      = 320192 := by
    rw [List.length_append, List.length_replicate, List.length_replicate]
  have h1 : VAD_MAX_SPEECH_SAMPLES
      ≤ (List.replicate 319936 (0 : Int) ++ List.replicate 256 (0 : Int)).length := by
    rw [hlen]
    norm_num [VAD_MAX_SPEECH_SAMPLES]
  have h2 : VAD_MIN_SPEECH_SAMPLES
      ≤ (List.replicate 319936 (0 : Int) ++ List.replicate 256 (0 : Int)).length := by
    rw [hlen, vad_min_speech_samples_eq]
    norm_num
  constructor
  · rw [processFrame_speech_max _ _ _ _ _ h1 h2]
  · rw [hlen]
    norm_num [VAD_MAX_SPEECH_SAMPLES]

/-- C5 (amended): when a speech frame makes the accumulation cross the
max-speech-sample ceiling, a segment of the whole accumulation is emitted
immediately (no silence needed); its length is at least the ceiling and
less than ceiling + one analysis frame (not exactly the ceiling in
general); the state remains Speech, the silence counter is reset, and
accumulation restarts empty. -/
theorem c5_force_flush_amended {α : Type} (st : VadSt α) (frame : List α)
    (hs : st.state = VadState.Speech) (hf : frame.length = VAD_FRAME_SIZE)
    (hlt : st.speech_buffer.length < VAD_MAX_SPEECH_SAMPLES)
    (hge : VAD_MAX_SPEECH_SAMPLES ≤ st.speech_buffer.length + frame.length) :
    processFrame st true frame
        = ({ st with speech_buffer := [], silence_count := 0 }, [st.speech_buffer ++ frame])
      ∧ ({ st with speech_buffer := ([] : List α), silence_count := 0 }).state = VadState.Speech
      ∧ VAD_MAX_SPEECH_SAMPLES ≤ (st.speech_buffer ++ frame).length
      ∧ (st.speech_buffer ++ frame).length < VAD_MAX_SPEECH_SAMPLES + VAD_FRAME_SIZE := by
  obtain ⟨s, pre, sb, sc, cb⟩ := st
  have hs' : s = VadState.Speech := hs
  subst hs'
  have hlt' : sb.length < VAD_MAX_SPEECH_SAMPLES := hlt
  have hge' : VAD_MAX_SPEECH_SAMPLES ≤ sb.length + frame.length := hge
  have h1 : VAD_MAX_SPEECH_SAMPLES ≤ (sb ++ frame).length := by
    rw [List.length_append]
    exact hge'
  have h2 : VAD_MIN_SPEECH_SAMPLES ≤ (sb ++ frame).length := by
    have hmm : VAD_MIN_SPEECH_SAMPLES ≤ VAD_MAX_SPEECH_SAMPLES := by
      rw [vad_min_speech_samples_eq]
      norm_num [VAD_MAX_SPEECH_SAMPLES]
    omega
  refine ⟨processFrame_speech_max _ _ _ _ _ h1 h2, rfl, h1, ?_⟩
  rw [List.length_append, hf]
  omega

/-- Witness for the amended C5 at a concrete crossing accumulation. -/
theorem c5_force_flush_amended_witness :
    processFrame (⟨VadState.Speech, [], List.replicate 319744 (0 : Int), 0, []⟩ : VadSt Int)
        true (List.replicate 256 (0 : Int))
      = ({ (⟨VadState.Speech, [], List.replicate 319744 (0 : Int), 0, []⟩ : VadSt Int) with
            speech_buffer := [], silence_count := 0 },
         [List.replicate 319744 (0 : Int) ++ List.replicate 256 (0 : Int)]) :=
  (c5_force_flush_amended _ _ rfl
    (by rw [vad_frame_size_eq, List.length_replicate])
    (by rw [List.length_replicate]; norm_num [VAD_MAX_SPEECH_SAMPLES])
    (by rw [List.length_replicate, List.length_replicate]
        norm_num [VAD_MAX_SPEECH_SAMPLES])).1

/-- C7: (1) `should_buffer` holds iff the state is PushToTalk and the
backend is the global_hotkey fallback; (2) while a session is active, a
non-empty live result is typed immediately iff not buffering (all four
recording-state/backend combinations); (3) the same condition, from the
state at stop time, decides whether the drained session text is typed all
at once after the drain. -/
theorem c7_buffering_policy :
    (∀ (s : RecordingState) (b : ActiveBackend),
        should_buffer s b = true
          ↔ s = RecordingState.PushToTalk ∧ b = ActiveBackend.GlobalHotkey)
    ∧ (∀ (st : CoordSt) (b : ActiveBackend) (cfg : AppCfg) (r : TranscribeResult),
        Effect.TypeText r.text ∈ (handleResult st b cfg r).2
          ↔ st.state.is_recording = true ∧ r.text ≠ "" ∧ should_buffer st.state b = false)
    ∧ (∀ (prev : RecordingState) (b : ActiveBackend) (cfg : AppCfg) (texts : List String)
          (ms : Nat),
        Effect.TypeText (String.intercalate (" ") texts)
            ∈ finalize_output (should_buffer prev b) (prev == RecordingState.AlwaysListen)
                cfg texts ms
          ↔ should_buffer prev b = true ∧ String.intercalate (" ") texts ≠ "") := by
  refine ⟨?_, ?_, ?_⟩
  · intro s b
    cases s <;> cases b <;> decide
  · intro st b cfg r
    by_cases hrec : st.state.is_recording = true
    · by_cases hr : r.text = ""
      · simp [handleResult, hr]
      · have hr' : (r.text == "") = false := by simp [hr]
        by_cases hb : should_buffer st.state b = true
        · have hst : st.state = RecordingState.PushToTalk := by
            have hbb := hb
            simp [should_buffer, Bool.and_eq_true, beq_iff_eq] at hbb
            exact hbb.1
          have hb2 : should_buffer RecordingState.PushToTalk b = true := by
            rw [← hst]
            exact hb
          simp [handleResult, hrec, hr', hb2, hst, hr, RecordingState.is_recording]
        · have hb' : should_buffer st.state b = false := by simpa using hb
          simp [handleResult, hrec, hr', hb', hr]
    · have h0 : st.state.is_recording = false := by simpa using hrec
      simp [handleResult, h0]
  · intro prev b cfg texts ms
    by_cases hb : should_buffer prev b = true
    · have hst : prev = RecordingState.PushToTalk := by
        have hbb := hb
        simp [should_buffer, Bool.and_eq_true, beq_iff_eq] at hbb
        exact hbb.1
      by_cases hf : String.intercalate (" ") texts = ""
      · simp [finalize_output, hst, hb, hf]
      · have hf' : (String.intercalate (" ") texts == "") = false := by simp [hf]
        simp [finalize_output, hst, hb, hf, hf']
    · have hb' : should_buffer prev b = false := by simpa using hb
      by_cases hal : (prev == RecordingState.AlwaysListen) = true
      · simp [finalize_output, hal, hb']
      · have hal' : (prev == RecordingState.AlwaysListen) = false := by simpa using hal
        by_cases hf : String.intercalate (" ") texts = ""
        · simp [finalize_output, hal', hf, hb']
        · have hf' : (String.intercalate (" ") texts == "") = false := by simp [hf]
          by_cases hc : cfg.clipboard_auto_copy
          · simp [finalize_output, hal', hf', hb', hc]
          · simp [finalize_output, hal', hf', hb', hc]

/-- C8: saving a non-empty transcript with a positive retention cap keeps
exactly the most recent min(previous length + 1, cap) entries — the oldest
are evicted first and the new entry is last — while a zero cap never
evicts. -/
theorem c8_retention_cap (store : List Transcript) (text : String) (ts : Int)
    (dt : String) (ms : Nat) (htext : text ≠ "") :
    (∀ maxT : Nat, 0 < maxT →
        save_transcript store text maxT ts dt ms
            = (store ++ [(⟨ts, dt, text, ms⟩ : Transcript)]).drop (store.length + 1 - maxT)
        ∧ (save_transcript store text maxT ts dt ms).length = min (store.length + 1) maxT
        ∧ (save_transcript store text maxT ts dt ms).getLast? = some ⟨ts, dt, text, ms⟩)
    ∧ save_transcript store text 0 ts dt ms = store ++ [(⟨ts, dt, text, ms⟩ : Transcript)] := by
  have ht' : (text == "") = false := by simp [htext]
  constructor
  · intro maxT hpos
    have hsave : save_transcript store text maxT ts dt ms
        = (store ++ [(⟨ts, dt, text, ms⟩ : Transcript)]).drop (store.length + 1 - maxT) := by
      by_cases hlen : maxT < store.length + 1
      · have hcond : 0 < maxT ∧ maxT < (store ++ [(⟨ts, dt, text, ms⟩ : Transcript)]).length := by
          refine ⟨hpos, ?_⟩
          rw [List.length_append, List.length_singleton]
          omega
        simp [save_transcript, ht', hpos, hlen, List.length_append, List.length_singleton]
      · have hz : store.length + 1 - maxT = 0 := by omega
        rw [hz]
        simp [save_transcript, ht', hlen, List.length_append, List.length_singleton]
    have hk : store.length + 1 - maxT ≤ store.length := by omega
    refine ⟨hsave, ?_, ?_⟩
    · rw [hsave, List.length_drop, List.length_append, List.length_singleton]
      omega
    · rw [hsave, List.drop_append_of_le_length hk, List.getLast?_concat]
  · simp [save_transcript, ht']

/-- Witness for C8: two stored entries, cap 2, saving a third keeps the two
most recent. -/
theorem c8_retention_cap_witness :
    save_transcript [⟨1, "d1", "a", 2⟩, ⟨2, "d2", "b", 3⟩] ("c") 2 3 ("d3") 4
      = [⟨2, "d2", "b", 3⟩, ⟨3, "d3", "c", 4⟩] := by
  have h := ((c8_retention_cap [⟨1, "d1", "a", 2⟩, ⟨2, "d2", "b", 3⟩] ("c") 3 ("d3") 4
      (by decide)).1 2 (by decide)).1
  rw [h]
  rfl

/-- The finalization step never raises the drain-timeout warning. -/
theorem warn_not_in_finalize (wb al : Bool) (cfg : AppCfg) (texts : List String) (ms : Nat) :
    Effect.WarnTimeout ∉ finalize_output wb al cfg texts ms := by
  unfold finalize_output
  cases al with
  | true => simp
  | false =>
    by_cases hf : (String.intercalate (" ") texts == "") = true
    · simp [hf]
    · have hf' : (String.intercalate (" ") texts == "") = false := by simpa using hf
      cases wb <;> by_cases hc : cfg.clipboard_auto_copy <;> simp [hf', hc]

/-- Behaviour of the drain loop: it accumulates exactly the non-sentinel
results arriving before the first sentinel, ends with Sentinel iff an
empty-text result is among the arrivals (otherwise Timeout, with the
warning raised exactly then), and its first effect is a channel wait. -/
theorem drainLoop_spec (wb al : Bool) (cfg : AppCfg) :
    ∀ (arrivals : List TranscribeResult) (texts : List String) (ms : Nat),
      (drainLoop wb al cfg arrivals texts ms).texts
          = texts ++ (arrivals.takeWhile (fun r => !(r.text == ""))).map TranscribeResult.text
      ∧ (drainLoop wb al cfg arrivals texts ms).ms
          = ms + ((arrivals.takeWhile (fun r => !(r.text == ""))).map
              TranscribeResult.process_time_ms).sum
      ∧ ((drainLoop wb al cfg arrivals texts ms).dend = DrainEnd.Sentinel
          ↔ arrivals.any (fun r => r.text == "") = true)
      ∧ (Effect.WarnTimeout ∈ (drainLoop wb al cfg arrivals texts ms).effs
          ↔ (drainLoop wb al cfg arrivals texts ms).dend = DrainEnd.Timeout)
      ∧ (drainLoop wb al cfg arrivals texts ms).effs.head? = some Effect.DrainWait := by
  intro arrivals
  induction arrivals with
  | nil =>
    intro texts ms
    refine ⟨by simp [drainLoop], by simp [drainLoop], by simp [drainLoop], ?_, by simp [drainLoop]⟩
    simp [drainLoop]
  | cons r rest ih =>
    intro texts ms
    by_cases hr : r.text = ""
    · have hr' : (r.text == "") = true := by simp [hr]
      refine ⟨?_, ?_, ?_, ?_, ?_⟩ <;> simp [drainLoop, hr']
    · have hr' : (r.text == "") = false := by simp [hr]
      obtain ⟨h1, h2, h3, h4, h5⟩ := ih (texts ++ [r.text]) (ms + r.process_time_ms)
      have hwlive : Effect.WarnTimeout
          ∉ ((if wb then ([] : List Effect) else [Effect.TypeText r.text])
              ++ (if al then
                    [Effect.SaveTranscript r.text cfg.max_transcripts r.process_time_ms,
                     Effect.TrayRefresh]
                  else [])) := by
        cases wb <;> cases al <;> simp
      refine ⟨?_, ?_, ?_, ?_, ?_⟩
      · simp [drainLoop, hr', h1, List.append_assoc]
      · simp [drainLoop, hr', h2, Nat.add_assoc]
      · simp [drainLoop, hr', h3]
      · simp [drainLoop, hr', hwlive, h4]
      · simp [drainLoop, hr']

/-- C1: for every stop of a recording session, the coordinator marks the
state Idle before the first drain wait on the transcription channel (the
first four effects are AudioStop, VadFlush, MarkIdle, DrainWait), ends with
state Idle, accumulates exactly the non-sentinel results received before
the sentinel into the session accumulator, terminates with Sentinel iff an
empty-text result arrives (the drain never blocks forever: exhausting the
timely arrivals is the receive timeout), and raises the lost-audio warning
exactly on timeout while still completing. -/
theorem c1_stop_and_drain (st : CoordSt) (b : ActiveBackend) (cfg : AppCfg)
    (arrivals : List TranscribeResult) :
    (stop_recording st b cfg arrivals).1.state = RecordingState.Idle
    ∧ ((stop_recording st b cfg arrivals).2.1).take 4
        = [Effect.AudioStop, Effect.VadFlush, Effect.MarkIdle, Effect.DrainWait]
    ∧ (stop_recording st b cfg arrivals).1.session_text
        = st.session_text
            ++ (arrivals.takeWhile (fun r => !(r.text == ""))).map TranscribeResult.text
    ∧ (stop_recording st b cfg arrivals).1.session_process_ms
        = st.session_process_ms
            + ((arrivals.takeWhile (fun r => !(r.text == ""))).map
                TranscribeResult.process_time_ms).sum
    ∧ ((stop_recording st b cfg arrivals).2.2 = DrainEnd.Sentinel
        ↔ arrivals.any (fun r => r.text == "") = true)
    ∧ (Effect.WarnTimeout ∈ (stop_recording st b cfg arrivals).2.1
        ↔ (stop_recording st b cfg arrivals).2.2 = DrainEnd.Timeout) := by
  obtain ⟨h1, h2, h3, h4, h5⟩ := drainLoop_spec (should_buffer st.state b)
    (st.state == RecordingState.AlwaysListen) cfg arrivals st.session_text st.session_process_ms
  have hwfin := warn_not_in_finalize (should_buffer st.state b)
    (st.state == RecordingState.AlwaysListen) cfg
    (drainLoop (should_buffer st.state b) (st.state == RecordingState.AlwaysListen) cfg
      arrivals st.session_text st.session_process_ms).texts
    (drainLoop (should_buffer st.state b) (st.state == RecordingState.AlwaysListen) cfg
      arrivals st.session_text st.session_process_ms).ms
  refine ⟨rfl, ?_, h1, h2, h3, ?_⟩
  · simp only [stop_recording]
    cases hd : (drainLoop (should_buffer st.state b) (st.state == RecordingState.AlwaysListen)
        cfg arrivals st.session_text st.session_process_ms).effs with
    | nil =>
      rw [hd] at h5
      simp at h5
    | cons e t =>
      rw [hd] at h5
      simp at h5
      subst h5
      rfl
  · simp only [stop_recording]
    simp [hwfin, h4]

end V2T
